import Mathlib

/-!
Verification development for the twintalk digital-twin runtime
(crates/twintalk-core). The Rust modules value.rs, message.rs, twin.rs,
event.rs, storage/memory_store.rs and runtime.rs are shallowly embedded as
executable Lean definitions; the theorems at the end of the file settle the
specification claims against them.

Modelling conventions:
* IEEE-754 binary64 (f64) is modelled by the inductive F64: NaN, the two
  infinities, and finite values as rationals (the sign of zero is not
  distinguished; integer-to-float coercion is modelled exactly, which agrees
  with Rust for all magnitudes below 2^53 and is not relied on beyond that).
  Rust float comparison semantics (NaN compares false with everything,
  including itself) are captured by F64.cmpOpt.
* Uuid::new_v4() is modelled by a fresh-supply counter (TwinId := Nat);
  its only property used by the code is uniqueness of freshly drawn ids.
* Clock reads (Utc::now(), Instant::now()) are passed in as explicit Nat
  arguments; Instant::duration_since saturates at zero, matching Nat
  subtraction.
* DashMap and BTreeMap are modelled as association lists: DashMap as an
  insertion-ordered list with replacing insert (iteration order of DashMap
  is arbitrary; no claim below depends on it), BTreeMap as a key-sorted
  list, matching its deterministic iteration order.
* async functions are sequentialized; Result is Except String.
-/

set_option maxRecDepth 4000

namespace Twintalk

/-- Model of Rust f64: NaN, infinities, finite values as rationals. -/
inductive F64 where
  | nan
  | inf
  | negInf
  | num (q : ℚ)
deriving DecidableEq

namespace F64

/-- Rust comparison on f64: none when either operand is NaN, otherwise the
order with -inf below all finite values below +inf. -/
def cmpOpt : F64 → F64 → Option Ordering
  | nan, _ => none
  | _, nan => none
  | inf, inf => some .eq
  | inf, _ => some .gt
  | _, inf => some .lt
  | negInf, negInf => some .eq
  | negInf, _ => some .lt
  | _, negInf => some .gt
  | num a, num b =>
      some (if a < b then .lt else if a = b then .eq else .gt)

/-- Rust `a > b` on f64 (false when either side is NaN). -/
def fgt (a b : F64) : Bool := cmpOpt a b == some .gt

/-- Rust `a == b` on f64: IEEE equality, so NaN is not equal to itself. -/
def ieeeEq (a b : F64) : Bool := cmpOpt a b == some .eq

/-- Rust `f as i64`: truncate toward zero, saturating at the i64 bounds;
NaN becomes 0. -/
def toI64 : F64 → Int
  | nan => 0
  | inf => 2 ^ 63 - 1
  | negInf => -(2 ^ 63)
  | num q =>
      let t : Int := if 0 ≤ q then Int.floor q else Int.ceil q
      max (min t (2 ^ 63 - 1)) (-(2 ^ 63))

end F64

/-- Rust `a == b` on Option f64, as produced by comparing as_f64 results. -/
def optF64Eq : Option F64 → Option F64 → Bool
  | none, none => true
  | some a, some b => F64.ieeeEq a b
  | _, _ => false

/-- Alias used where the Value.String constructor would shadow the type. -/
abbrev Str := String

/-- value.rs: the Value enum (property and argument data). -/
inductive Value where
  | Nil
  | Boolean (b : Bool)
  | Integer (i : Int)
  | Float (f : F64)
  | String (s : Str)
  | Symbol (s : Str)
  | Array (vs : List Value)
  | Map (m : List (Str × Value))
  | Bytes (bs : List Nat)

namespace Value

/-- value.rs Value::as_bool. -/
def as_bool : Value → Option Bool
  | .Boolean b => some b
  | .Nil => some false
  | _ => none

/-- value.rs Value::as_i64. -/
def as_i64 : Value → Option Int
  | .Integer i => some i
  | .Float f => some f.toI64
  | _ => none

/-- value.rs Value::as_f64 (integers are coerced to float). -/
def as_f64 : Value → Option F64
  | .Float f => some f
  | .Integer i => some (F64.num (i : ℚ))
  | _ => none

/-- value.rs Value::as_str (strings and symbols). -/
def as_str : Value → Option Str
  | .String s => some s
  | .Symbol s => some s
  | _ => none

/-- value.rs Value::is_truthy. -/
def is_truthy : Value → Bool
  | .Nil => false
  | .Boolean false => false
  | _ => true

/-- value.rs impl From bool for Value. -/
def from_bool (b : Bool) : Value := .Boolean b

/-- value.rs impl From i32 for Value (i64::from is exact). -/
def from_i32 (i : Int) : Value := .Integer i

/-- value.rs impl From i64 for Value. -/
def from_i64 (i : Int) : Value := .Integer i

/-- value.rs impl From f64 for Value. -/
def from_f64 (f : F64) : Value := .Float f

/-- value.rs impl From String for Value. -/
def from_string (s : Str) : Value := .String s

end Value

/-- Lexicographic order on unicode scalar values; on UTF-8 strings this
agrees with the byte-wise Ord that Rust BTreeMap of String keys uses. -/
def charListLt : List Char → List Char → Bool
  | [], [] => false
  | [], _ :: _ => true
  | _ :: _, [] => false
  | a :: as, b :: bs =>
      if a.toNat < b.toNat then true
      else if b.toNat < a.toNat then false
      else charListLt as bs

/-- String order used by the BTreeMap model. -/
def strLt (a b : String) : Bool := charListLt a.data b.data

/-- BTreeMap insert: keep the association list sorted by key, replacing an
existing binding. -/
def mapInsert (k : String) (v : Value) : List (String × Value) → List (String × Value)
  | [] => [(k, v)]
  | (k', v') :: rest =>
      if strLt k k' then (k, v) :: (k', v') :: rest
      else if k = k' then (k, v) :: rest
      else (k', v') :: mapInsert k v rest

/-- BTreeMap get. -/
def mapGet (k : String) : List (String × Value) → Option Value
  | [] => none
  | (k', v) :: rest => if k = k' then some v else mapGet k rest

/-- twin.rs: TwinId, a random 128-bit uuid, modelled as a fresh-supply Nat. -/
abbrev TwinId := Nat

/-- message.rs: the Message enum. -/
inductive Message where
  | GetProperty (name : String)
  | SetProperty (name : String) (value : Value)
  | UpdateProperties (updates : List (String × Value))
  | Send (selector : String) (args : List Value)
  | Clone
  | Initialize
  | Destroy
  | GetClass
  | GetAllProperties
  | RespondsTo (selector : String)

/-- twin.rs: TwinState, the persisted projection of a twin. -/
structure TwinState where
  id : TwinId
  class_name : String
  properties : List (String × Value)
  parent_id : Option TwinId
  created_at : Nat
  updated_at : Nat
  is_hypothetical : Bool
  simulation_time : Option Nat

/-- twin.rs: Twin, state plus behavior. -/
structure Twin where
  state : TwinState

namespace Twin

/-- twin.rs Twin::new: fresh random id (freshId models Uuid::new_v4), both
timestamps set to now. -/
def new (freshId : TwinId) (class_name : String) (now : Nat) : Twin :=
  { state :=
      { id := freshId
        class_name := class_name
        properties := []
        parent_id := none
        created_at := now
        updated_at := now
        is_hypothetical := false
        simulation_time := none } }

/-- twin.rs Twin::from_state. -/
def from_state (state : TwinState) : Twin := { state := state }

/-- twin.rs Twin::is_hypothetical. -/
def is_hypothetical (t : Twin) : Bool := t.state.is_hypothetical

/-- twin.rs Twin::clone_twin: fresh id, parent set to the source id, fresh
timestamps; every other field (class_name, properties, and also
is_hypothetical and simulation_time) is copied from the source. -/
def clone_twin (t : Twin) (freshId : TwinId) (now : Nat) : Twin :=
  { state :=
      { t.state with
          id := freshId
          parent_id := some t.state.id
          created_at := now
          updated_at := now } }

/-- twin.rs Twin::clone_hypothetical: like clone_twin but marks the clone
hypothetical and stamps simulation_time with now. -/
def clone_hypothetical (t : Twin) (freshId : TwinId) (now : Nat) : Twin :=
  { state :=
      { t.state with
          id := freshId
          parent_id := some t.state.id
          created_at := now
          updated_at := now
          is_hypothetical := true
          simulation_time := some now } }

/-- twin.rs Twin::set_simulation_time: fails on non-hypothetical twins. -/
def set_simulation_time (t : Twin) (time : Nat) : Twin × Except String Unit :=
  if t.state.is_hypothetical then
    ({ state := { t.state with simulation_time := some time } }, .ok ())
  else
    (t, .error "Cannot set simulation time on non-hypothetical twin")

/-- twin.rs Twin::responds_to_builtin. -/
def responds_to_builtin (selector : String) : Bool :=
  selector == "class" || selector == "allProperties" || selector == "clone" ||
    selector == "respondsTo:" || selector == "checkAlert"

/-- twin.rs Twin::handle_custom_message: the only built-in selector is
checkAlert; the args are ignored by it. Any other selector is a
does-not-understand error without further state change. -/
def handle_custom_message (t : Twin) (selector : String) (_args : List Value) :
    Twin × Except String Value :=
  if selector = "checkAlert" then
    let temp := ((mapGet "temperature" t.state.properties).bind Value.as_f64).getD (F64.num 0)
    let threshold := ((mapGet "threshold" t.state.properties).bind Value.as_f64).getD (F64.num 30)
    let alert := F64.fgt temp threshold
    ({ state := { t.state with properties := mapInsert "alert" (.Boolean alert) t.state.properties } },
      .ok (.Boolean alert))
  else
    (t, .error ("Twin does not understand: " ++ selector))

/-- twin.rs Twin::send. The first statement of the Rust function sets
updated_at to Utc::now() before dispatching, so every send, including a
failing one, bumps updated_at. freshId models the Uuid::new_v4 drawn in the
Clone arm; call sites whose message cannot be Clone pass 0. The error text
of the catch-all arm (Initialize, Destroy) abbreviates the Rust debug
formatting of the message. -/
def send (t : Twin) (now : Nat) (freshId : TwinId) (m : Message) : Twin × Except String Value :=
  let t1 : Twin := { state := { t.state with updated_at := now } }
  match m with
  | .GetProperty name =>
      (t1, .ok ((mapGet name t1.state.properties).getD .Nil))
  | .SetProperty name value =>
      ({ state := { t1.state with properties := mapInsert name value t1.state.properties } },
        .ok .Nil)
  | .UpdateProperties updates =>
      ({ state :=
          { t1.state with
              properties := updates.foldl (fun acc kv => mapInsert kv.1 kv.2 acc) t1.state.properties } },
        .ok .Nil)
  | .Clone =>
      (t1, .ok (.String (toString (t1.clone_twin freshId now).state.id)))
  | .GetClass => (t1, .ok (.String t1.state.class_name))
  | .GetAllProperties => (t1, .ok (.Map t1.state.properties))
  | .RespondsTo selector => (t1, .ok (.Boolean (responds_to_builtin selector)))
  | .Send selector args => t1.handle_custom_message selector args
  | _ => (t1, .error "Unhandled message")

end Twin

/-- event.rs: the TwinEvent enum; the MessageSent result field models
Result of Value and String. -/
inductive TwinEvent where
  | Created (twin_id : TwinId) (class_name : String) (timestamp : Nat)
  | PropertyChanged (twin_id : TwinId) (property : String) (old_value : Option Value)
      (new_value : Value) (timestamp : Nat)
  | TelemetryReceived (twin_id : TwinId) (data : List (String × F64)) (timestamp : Nat)
  | MessageSent (twin_id : TwinId) (selector : String) (args : List Value)
      (result : Sum String Value) (timestamp : Nat)
  | Cloned (twin_id : TwinId) (source_id : TwinId) (timestamp : Nat)
  | Destroyed (twin_id : TwinId) (timestamp : Nat)

/-- event.rs TwinEvent::twin_id. -/
def TwinEvent.twin_id : TwinEvent → TwinId
  | .Created tid _ _ => tid
  | .PropertyChanged tid _ _ _ _ => tid
  | .TelemetryReceived tid _ _ => tid
  | .MessageSent tid _ _ _ _ => tid
  | .Cloned tid _ _ => tid
  | .Destroyed tid _ => tid

/-- event.rs: TwinSnapshot. -/
structure TwinSnapshot where
  twin_id : TwinId
  class_name : String
  properties : List (String × Value)
  parent_id : Option TwinId
  event_version : Nat
  timestamp : Nat

/-- DashMap get (keyed association list, first match). -/
def alGet {α β : Type} [DecidableEq α] (k : α) : List (α × β) → Option β
  | [] => none
  | (k', v) :: rest => if k = k' then some v else alGet k rest

/-- DashMap insert: replace the binding if the key is present, else add it. -/
def alInsert {α β : Type} [DecidableEq α] (k : α) (v : β) : List (α × β) → List (α × β)
  | [] => [(k, v)]
  | (k', v') :: rest => if k = k' then (k, v) :: rest else (k', v') :: alInsert k v rest

/-- Stable insertion (by event version) used to model Vec::sort_by_key. -/
def insertByKey (p : Nat × TwinEvent) : List (Nat × TwinEvent) → List (Nat × TwinEvent)
  | [] => [p]
  | q :: rest => if p.1 ≤ q.1 then p :: q :: rest else q :: insertByKey p rest

/-- events.sort_by_key on the version component (stable, ascending). -/
def sortByKey (l : List (Nat × TwinEvent)) : List (Nat × TwinEvent) :=
  l.foldr insertByKey []

/-- memory_store.rs: MemoryEventStore; it implements both EventStore and
SnapshotStore, so the snapshots map lives here too. -/
structure MemoryEventStore where
  events : List (Nat × TwinEvent)
  twin_events : List (TwinId × List Nat)
  snapshots : List (TwinId × TwinSnapshot)
  version_counter : Nat

namespace MemoryEventStore

/-- memory_store.rs MemoryEventStore::new. -/
def new : MemoryEventStore :=
  { events := [], twin_events := [], snapshots := [], version_counter := 0 }

/-- memory_store.rs append: fetch_add on the counter yields version
counter + 1, record the event under that version and push the version onto
the per-twin index. -/
def append (s : MemoryEventStore) (event : TwinEvent) : MemoryEventStore × Nat :=
  let version := s.version_counter + 1
  let tid := event.twin_id
  let prev := (alGet tid s.twin_events).getD []
  ({ events := alInsert version event s.events
     twin_events := alInsert tid (prev ++ [version]) s.twin_events
     snapshots := s.snapshots
     version_counter := version }, version)

/-- memory_store.rs get_events: walk the per-twin version index, keep
versions strictly above after_version, look each event up, sort by version. -/
def get_events (s : MemoryEventStore) (twin_id : TwinId) (after_version : Nat) :
    List (Nat × TwinEvent) :=
  let versions := (alGet twin_id s.twin_events).getD []
  let evs := versions.foldl (fun acc version =>
      if after_version < version then
        match alGet version s.events with
        | some event => acc ++ [(version, event)]
        | none => acc
      else acc) []
  sortByKey evs

/-- memory_store.rs get_latest_version: load of the atomic counter. -/
def get_latest_version (s : MemoryEventStore) : Nat := s.version_counter

/-- memory_store.rs save_snapshot: upsert keyed by twin id. -/
def save_snapshot (s : MemoryEventStore) (snapshot : TwinSnapshot) : MemoryEventStore :=
  { s with snapshots := alInsert snapshot.twin_id snapshot s.snapshots }

/-- memory_store.rs get_snapshot. -/
def get_snapshot (s : MemoryEventStore) (twin_id : TwinId) : Option TwinSnapshot :=
  alGet twin_id s.snapshots

end MemoryEventStore

/-- runtime.rs: RuntimeConfig. -/
structure RuntimeConfig where
  eviction_timeout : Nat
  eviction_interval : Nat
  snapshot_on_eviction : Bool
  max_active_twins : Option Nat

/-- runtime.rs: the Default impl for RuntimeConfig (seconds as Nat). -/
def RuntimeConfig.standard : RuntimeConfig :=
  { eviction_timeout := 300
    eviction_interval := 60
    snapshot_on_eviction := true
    max_active_twins := none }

/-- runtime.rs: ActiveTwin, a resident twin with its last-access instant. -/
structure ActiveTwin where
  twin : Twin
  last_accessed : Nat

/-- runtime.rs: Runtime. Runtime::new wires the same MemoryEventStore in as
both the event store and the snapshot store, so the model holds a single
store. id_supply models the stream of Uuid::new_v4 draws. -/
structure Runtime where
  config : RuntimeConfig
  store : MemoryEventStore
  active_twins : List (TwinId × ActiveTwin)
  id_supply : Nat

namespace Runtime

/-- runtime.rs Runtime::new. -/
def new (config : RuntimeConfig) : Runtime :=
  { config := config, store := MemoryEventStore.new, active_twins := [], id_supply := 0 }

/-- runtime.rs Runtime::create_twin: build the twin, append Created, insert
into the registry. The memory store append is infallible, so the Result
wrapper is dropped. -/
def create_twin (rt : Runtime) (class_name : String) (now : Nat) : Runtime × TwinId :=
  let twin := Twin.new rt.id_supply class_name now
  let twin_id := twin.state.id
  let store' := (rt.store.append (.Created twin_id class_name now)).1
  ({ rt with
      store := store'
      id_supply := rt.id_supply + 1
      active_twins := alInsert twin_id { twin := twin, last_accessed := now } rt.active_twins },
    twin_id)

/-- runtime.rs Runtime::create_hypothetical_twin: no event is appended. -/
def create_hypothetical_twin (rt : Runtime) (class_name : String) (now : Nat) :
    Runtime × TwinId :=
  let twin0 := Twin.new rt.id_supply class_name now
  let twin : Twin :=
    { state := { twin0.state with is_hypothetical := true, simulation_time := some now } }
  let twin_id := twin.state.id
  ({ rt with
      id_supply := rt.id_supply + 1
      active_twins := alInsert twin_id { twin := twin, last_accessed := now } rt.active_twins },
    twin_id)

/-- runtime.rs Runtime::apply_event: PropertyChanged replays as SetProperty,
TelemetryReceived as UpdateProperties with floats boxed; other variants do
not modify state. -/
def apply_event (twin : Twin) (event : TwinEvent) (now : Nat) : Except String Twin :=
  match event with
  | .PropertyChanged _ property _ new_value _ =>
      let r := twin.send now 0 (.SetProperty property new_value)
      match r.2 with
      | .ok _ => .ok r.1
      | .error e => .error e
  | .TelemetryReceived _ data _ =>
      let updates := data.map (fun kv => (kv.1, Value.Float kv.2))
      let r := twin.send now 0 (.UpdateProperties updates)
      match r.2 with
      | .ok _ => .ok r.1
      | .error e => .error e
  | _ => .ok twin

/-- The replay loop of Runtime::load_twin. -/
def replay (twin : Twin) (events : List (Nat × TwinEvent)) (now : Nat) : Except String Twin :=
  match events with
  | [] => .ok twin
  | (_, e) :: rest =>
      match apply_event twin e now with
      | .ok t' => replay t' rest now
      | .error err => .error err

/-- runtime.rs Runtime::load_twin: snapshot first (note: it rebuilds the
state with is_hypothetical false and both timestamps from the snapshot),
then the event tail; with no snapshot the first event must be Created and
the twin is rebuilt with Twin::new, which draws a fresh id. -/
def load_twin (rt : Runtime) (twin_id : TwinId) (now : Nat) : Except String (Runtime × Twin) :=
  let snap := rt.store.get_snapshot twin_id
  let stateOpt : Option TwinState := snap.map (fun s =>
      { id := s.twin_id
        class_name := s.class_name
        properties := s.properties
        parent_id := s.parent_id
        created_at := s.timestamp
        updated_at := s.timestamp
        is_hypothetical := false
        simulation_time := none })
  let start_version := (snap.map (fun s => s.event_version)).getD 0
  let events := rt.store.get_events twin_id start_version
  if events.isEmpty && stateOpt.isNone then
    .error "Twin not found"
  else
    let had_snapshot := stateOpt.isSome
    let init : Except String (Runtime × Twin) :=
      match stateOpt with
      | some s => .ok (rt, Twin.from_state s)
      | none =>
          match events.head? with
          | some (_, .Created _ class_name _) =>
              .ok ({ rt with id_supply := rt.id_supply + 1 }, Twin.new rt.id_supply class_name now)
          | some _ => .error "First event must be Created"
          | none => .error "No state or events found"
    match init with
    | .error e => .error e
    | .ok (rt1, twin0) =>
        match replay twin0 (events.drop (if had_snapshot then 0 else 1)) now with
        | .error e => .error e
        | .ok twin =>
            .ok ({ rt1 with
                    active_twins := alInsert twin_id { twin := twin, last_accessed := now } rt1.active_twins },
              twin)

/-- runtime.rs Runtime::get_twin: touch and return if resident, else load. -/
def get_twin (rt : Runtime) (twin_id : TwinId) (now : Nat) : Except String (Runtime × Twin) :=
  match alGet twin_id rt.active_twins with
  | some active =>
      .ok ({ rt with
              active_twins := alInsert twin_id { active with last_accessed := now } rt.active_twins },
        active.twin)
  | none => rt.load_twin twin_id now

/-- runtime.rs Runtime::update_telemetry: the hypothetical check happens
only on the resident twin (an absent twin counts as not hypothetical);
persist unless hypothetical; then, only if resident, touch and apply
UpdateProperties in memory (the touch and the send both stamp now). -/
def update_telemetry (rt : Runtime) (twin_id : TwinId) (data : List (String × F64)) (now : Nat) :
    Except String Runtime :=
  let is_hypo :=
    match alGet twin_id rt.active_twins with
    | some active => active.twin.is_hypothetical
    | none => false
  let rt1 :=
    if is_hypo then rt
    else { rt with store := (rt.store.append (.TelemetryReceived twin_id data now)).1 }
  match alGet twin_id rt1.active_twins with
  | some active =>
      let updates := data.map (fun kv => (kv.1, Value.Float kv.2))
      let r := active.twin.send now 0 (.UpdateProperties updates)
      match r.2 with
      | .ok _ =>
          .ok { rt1 with
                  active_twins := alInsert twin_id { twin := r.1, last_accessed := now } rt1.active_twins }
      | .error e => .error e
  | none => .ok rt1

/-- runtime.rs Runtime::snapshot_twin: load (or reuse) the twin, capture its
state, read the global latest version, save the snapshot with it. -/
def snapshot_twin (rt : Runtime) (twin_id : TwinId) (now : Nat) : Except String Runtime :=
  match rt.get_twin twin_id now with
  | .error e => .error e
  | .ok (rt1, twin) =>
      let version := rt1.store.get_latest_version
      let snapshot : TwinSnapshot :=
        { twin_id := twin_id
          class_name := twin.state.class_name
          properties := twin.state.properties
          parent_id := twin.state.parent_id
          event_version := version
          timestamp := now }
      .ok { rt1 with store := rt1.store.save_snapshot snapshot }

/-- runtime.rs Runtime::evict_inactive: collect every resident twin whose
idle age strictly exceeds the timeout (with no hypothetical check), then
for each one optionally snapshot (errors discarded by .ok()) and remove it. -/
def evict_inactive (rt : Runtime) (now : Nat) : Runtime × Nat :=
  let to_evict :=
    (rt.active_twins.filter
        (fun p => decide (rt.config.eviction_timeout < now - p.2.last_accessed))).map
      (fun p => p.1)
  let rtFinal := to_evict.foldl (fun acc twin_id =>
      let acc1 :=
        if acc.config.snapshot_on_eviction then
          match acc.snapshot_twin twin_id now with
          | .ok r => r
          | .error _ => acc
        else acc
      { acc1 with active_twins := acc1.active_twins.filter (fun p => p.1 != twin_id) }) rt
  (rtFinal, to_evict.length)

/-- runtime.rs RuntimeStats. -/
structure Stats where
  active_twins : Nat
  total_events : Nat

/-- runtime.rs Runtime::stats. -/
def stats (rt : Runtime) : Stats :=
  { active_twins := rt.active_twins.length, total_events := rt.store.get_latest_version }

end Runtime

/-- A sequence of append calls on an event store, returning the final store
and the versions assigned in call order. -/
def appendAll (s : MemoryEventStore) : List TwinEvent → MemoryEventStore × List Nat
  | [] => (s, [])
  | e :: rest =>
      let r := s.append e
      let r' := appendAll r.1 rest
      (r'.1, r.2 :: r'.2)

/-- Test configuration: eviction after 10 time units, no snapshot on
eviction. -/
def cfgNoSnap : RuntimeConfig :=
  { eviction_timeout := 10
    eviction_interval := 60
    snapshot_on_eviction := false
    max_active_twins := none }

/-- Test configuration: eviction after 10 time units, snapshot on eviction
(the default policy). -/
def cfgSnap : RuntimeConfig := { cfgNoSnap with snapshot_on_eviction := true }

/-- Scenario: one persistent twin (id 0) created at time 0 under cfgNoSnap. -/
def rtSensor : Runtime × TwinId := (Runtime.new cfgNoSnap).create_twin "Sensor" 0

/-- The sensor runtime after evict_inactive at time 20 (idle 20 > 10). -/
def rtSensorEvicted : Runtime := (rtSensor.1.evict_inactive 20).1

/-- Scenario: one hypothetical twin (id 0) created at time 0, snapshotting
eviction policy. -/
def rtHypoSnap : Runtime × TwinId := (Runtime.new cfgSnap).create_hypothetical_twin "Hypo" 0

/-- Scenario: one hypothetical twin (id 0) created at time 0, non-snapshotting
eviction policy. -/
def rtHypoNoSnap : Runtime × TwinId :=
  (Runtime.new cfgNoSnap).create_hypothetical_twin "Hypo" 0

/-- The hypothetical twin's runtime after evict_inactive at time 20. -/
def rtHypoNoSnapEvicted : Runtime := (rtHypoNoSnap.1.evict_inactive 20).1

/-- Scenario: a persistent twin A (id 0, Created at event version 1). -/
def rtA : Runtime × TwinId := (Runtime.new RuntimeConfig.standard).create_twin "A" 0

/-- Scenario: rtA plus a second twin B (id 1, Created at event version 2). -/
def rtAB : Runtime × TwinId := rtA.1.create_twin "B" 0

/-- A concrete hypothetical twin: clone_hypothetical of a fresh twin. -/
def hypoTwin : Twin := (Twin.new 0 "S" 0).clone_hypothetical 1 0

/-! Helper lemmas. -/

theorem charListLt_irrefl (l : List Char) : charListLt l l = false := by
  induction l with
  | nil => rfl
  | cons a as ih => simp [charListLt, ih]

theorem strLt_irrefl (s : String) : strLt s s = false := by
  simp [strLt, charListLt_irrefl]

theorem mapGet_mapInsert_self (k : String) (v : Value) (m : List (String × Value)) :
    mapGet k (mapInsert k v m) = some v := by
  induction m with
  | nil => simp [mapInsert, mapGet]
  | cons hd tl ih =>
      obtain ⟨k', v'⟩ := hd
      by_cases hlt : strLt k k' = true
      · simp [mapInsert, mapGet, hlt]
      · by_cases heq : k = k'
        · subst heq
          simp [mapInsert, mapGet, hlt, strLt_irrefl]
        · simp [mapInsert, mapGet, hlt, heq, ih]

theorem alGet_alInsert_self {α β : Type} [DecidableEq α] (k : α) (v : β) (l : List (α × β)) :
    alGet k (alInsert k v l) = some v := by
  induction l with
  | nil => simp [alInsert, alGet]
  | cons hd tl ih =>
      obtain ⟨k', v'⟩ := hd
      by_cases h : k = k'
      · simp [alInsert, alGet, h]
      · simp [alInsert, alGet, h, ih]

theorem appendAll_spec (es : List TwinEvent) :
    ∀ s : MemoryEventStore,
      (appendAll s es).2 = List.range' (s.version_counter + 1) es.length ∧
        (appendAll s es).1.version_counter = s.version_counter + es.length := by
  induction es with
  | nil => intro s; simp [appendAll]
  | cons e rest ih =>
      intro s
      have h := ih ((s.append e).1)
      have hc : (s.append e).1.version_counter = s.version_counter + 1 := rfl
      constructor
      · simp only [appendAll, List.length_cons, List.range'_succ]
        refine congrArg (fun l => (s.append e).2 :: l) ?_
        rw [h.1, hc]
      · simp only [appendAll]
        rw [h.2, hc]
        simp only [List.length_cons]
        omega

/-! Claim theorems. -/

/-- C5 counterexample: the ordinary clone (clone_twin) of a hypothetical
twin keeps is_hypothetical = true and keeps the source's simulation_time,
contradicting the claim that every ordinary clone has is_hypothetical =
false and simulation_time = None. -/
theorem claim5_counterexample :
    (hypoTwin.clone_twin 2 5).state.is_hypothetical = true ∧
      (hypoTwin.clone_twin 2 5).state.simulation_time = some 0 := ⟨rfl, rfl⟩

/-- C5 amended: clone_twin yields a fresh id distinct from the source's
(distinctness being the uuid-freshness hypothesis), parent_id equal to the
source id, the source's class_name and properties, both timestamps reset to
now, and it copies, rather than resets, is_hypothetical and
simulation_time; for a non-hypothetical source with simulation_time = None
the original claim therefore holds. -/
theorem claim5_clone_rule (t : Twin) (freshId : TwinId) (now : Nat)
    (hfresh : freshId ≠ t.state.id) :
    (t.clone_twin freshId now).state.id = freshId ∧
      (t.clone_twin freshId now).state.id ≠ t.state.id ∧
      (t.clone_twin freshId now).state.parent_id = some t.state.id ∧
      (t.clone_twin freshId now).state.class_name = t.state.class_name ∧
      (t.clone_twin freshId now).state.properties = t.state.properties ∧
      (t.clone_twin freshId now).state.created_at = now ∧
      (t.clone_twin freshId now).state.updated_at = now ∧
      (t.clone_twin freshId now).state.is_hypothetical = t.state.is_hypothetical ∧
      (t.clone_twin freshId now).state.simulation_time = t.state.simulation_time :=
  ⟨rfl, hfresh, rfl, rfl, rfl, rfl, rfl, rfl, rfl⟩

theorem claim5_clone_rule_witness :
    ((Twin.new 0 "S" 0).clone_twin 1 2).state.id ≠ (Twin.new 0 "S" 0).state.id :=
  (claim5_clone_rule (Twin.new 0 "S" 0) 1 2 (by decide)).2.1

/-- C6 counterexample: a Send with an unknown selector returns an error but
still mutates the twin: updated_at is bumped to the call time, so the state
is not exactly what it was before the call. -/
theorem claim6_counterexample :
    (∃ e, ((Twin.new 0 "S" 0).send 1 0 (.Send "foo" [])).2 = .error e) ∧
      ((Twin.new 0 "S" 0).send 1 0 (.Send "foo" [])).1.state.updated_at = 1 ∧
      (Twin.new 0 "S" 0).state.updated_at = 0 ∧
      ((Twin.new 0 "S" 0).send 1 0 (.Send "foo" [])).1.state ≠ (Twin.new 0 "S" 0).state := by
  refine ⟨⟨"Twin does not understand: " ++ "foo", rfl⟩, rfl, rfl, fun h => ?_⟩
  exact absurd (congrArg TwinState.updated_at h) (by decide)

/-- C6 amended: every send of an unknown Send selector or of an unhandled
lifecycle message (Initialize, Destroy) returns a descriptive error, and the
resulting state is the prior state with only updated_at changed, set to the
call time: properties and all other fields are untouched, but updated_at is
mutated even on failure. -/
theorem claim6_failing_send (t : Twin) (now freshId : Nat) (selector : String)
    (args : List Value) (h : selector ≠ "checkAlert") :
    ((t.send now freshId (.Send selector args)).1.state = { t.state with updated_at := now } ∧
        ∃ e, (t.send now freshId (.Send selector args)).2 = .error e) ∧
      ((t.send now freshId .Initialize).1.state = { t.state with updated_at := now } ∧
        ∃ e, (t.send now freshId .Initialize).2 = .error e) ∧
      ((t.send now freshId .Destroy).1.state = { t.state with updated_at := now } ∧
        ∃ e, (t.send now freshId .Destroy).2 = .error e) := by
  refine ⟨⟨?_, ?_⟩, ⟨rfl, ⟨"Unhandled message", rfl⟩⟩, ⟨rfl, ⟨"Unhandled message", rfl⟩⟩⟩
  · show (Twin.handle_custom_message _ selector args).1.state = _
    simp [Twin.handle_custom_message, h]
  · show ∃ e, (Twin.handle_custom_message _ selector args).2 = .error e
    refine ⟨"Twin does not understand: " ++ selector, ?_⟩
    simp [Twin.handle_custom_message, h]

theorem claim6_failing_send_witness :
    ((Twin.new 0 "S" 0).send 1 0 (.Send "bar" [])).1.state =
      { (Twin.new 0 "S" 0).state with updated_at := 1 } :=
  (claim6_failing_send (Twin.new 0 "S" 0) 1 0 "bar" [] (by decide)).1.1

/-- C7: for every twin and argument list, sending Send checkAlert reads the
temperature property coerced to f64 with default 0 and the threshold
property with default 30, computes alert with the Rust float comparison
temperature > threshold, stores Boolean alert under the alert property, and
returns Boolean alert. -/
theorem claim7_checkAlert (t : Twin) (args : List Value) (now freshId : Nat) :
    (t.send now freshId (.Send "checkAlert" args)).2 =
        .ok (.Boolean (F64.fgt
          (((mapGet "temperature" t.state.properties).bind Value.as_f64).getD (F64.num 0))
          (((mapGet "threshold" t.state.properties).bind Value.as_f64).getD (F64.num 30)))) ∧
      mapGet "alert" (t.send now freshId (.Send "checkAlert" args)).1.state.properties =
        some (.Boolean (F64.fgt
          (((mapGet "temperature" t.state.properties).bind Value.as_f64).getD (F64.num 0))
          (((mapGet "threshold" t.state.properties).bind Value.as_f64).getD (F64.num 30)))) := by
  constructor
  · rfl
  · exact mapGet_mapInsert_self _ _ _

/-- C8: on a fresh in-memory store, n successful appends are assigned
exactly the versions 1, 2, ..., n in call order (strictly monotonic,
starting at 1, never reused), get_latest_version afterwards is n, the
largest assigned version, and the empty store reports 0. -/
theorem claim8_append_versions (es : List TwinEvent) :
    (appendAll MemoryEventStore.new es).2 = List.range' 1 es.length ∧
      (appendAll MemoryEventStore.new es).1.get_latest_version = es.length ∧
      MemoryEventStore.new.get_latest_version = 0 := by
  have h := appendAll_spec es MemoryEventStore.new
  refine ⟨?_, ?_, rfl⟩
  · simpa using h.1
  · simpa [MemoryEventStore.get_latest_version, MemoryEventStore.new] using h.2

/-- C9 counterexample: the f64 round-trip law fails at NaN under Rust
Option-of-f64 equality, because IEEE comparison makes NaN unequal to
itself: from_f64 NaN round-trips structurally but the claimed equality is
false. -/
theorem claim9_counterexample :
    optF64Eq ((Value.from_f64 F64.nan).as_f64) (some F64.nan) = false := rfl

/-- C9 amended: the round-trip law holds for every bool, i64 and string,
and as_f64 after from_f64 returns exactly the stored float for every f64;
under Rust f64 equality the f64 round-trip equation holds for every
non-NaN x and fails only at NaN. -/
theorem claim9_roundtrip :
    (∀ b : Bool, (Value.from_bool b).as_bool = some b) ∧
      (∀ i : Int, (Value.from_i64 i).as_i64 = some i) ∧
      (∀ s : Str, (Value.from_string s).as_str = some s) ∧
      (∀ x : F64, (Value.from_f64 x).as_f64 = some x) ∧
      (∀ x : F64, x ≠ F64.nan →
        optF64Eq ((Value.from_f64 x).as_f64) (some x) = true) := by
  refine ⟨fun b => rfl, fun i => rfl, fun s => rfl, fun x => rfl, fun x hx => ?_⟩
  cases x with
  | nan => exact absurd rfl hx
  | inf => rfl
  | negInf => rfl
  | num q =>
      simp only [Value.from_f64, Value.as_f64, optF64Eq, F64.ieeeEq, F64.cmpOpt,
        lt_self_iff_false, if_false, if_pos rfl]
      rfl

theorem claim9_roundtrip_witness :
    optF64Eq ((Value.from_f64 (F64.num 1)).as_f64) (some (F64.num 1)) = true :=
  claim9_roundtrip.2.2.2.2 (F64.num 1) (by decide)

/-- C1 (code refutation): twin id 0 has one persisted event, its Created
event, which carries twin id 0; after a plain eviction (no snapshot)
get_twin(0) succeeds and replays the class name, but materializes a twin
whose state id is a freshly drawn id, not 0 — so the materialized state is
not the fold of get_events(0, 0), whose Created event fixes the id. -/
theorem claim1_reload_changes_id :
    rtSensor.2 = 0 ∧
      rtSensorEvicted.store.get_events 0 0 = [(1, .Created 0 "Sensor" 0)] ∧
      ((rtSensorEvicted.get_twin 0 30).toOption.map
        (fun p => decide (p.2.state.id = 0))) = some false ∧
      ((rtSensorEvicted.get_twin 0 30).toOption.map
        (fun p => p.2.state.class_name)) = some "Sensor" :=
  ⟨rfl, rfl, rfl, rfl⟩

/-- C2 (code refutation): under the snapshot-on-eviction policy, a resident
hypothetical twin idle past the timeout is evicted by evict_inactive and a
snapshot of it is saved: the eviction scan has no hypothetical check, so
hypothetical twins are not pinned. -/
theorem claim2_hypothetical_evicted :
    ((alGet rtHypoSnap.2 rtHypoSnap.1.active_twins).map
        (fun a => a.twin.state.is_hypothetical)) = some true ∧
      (rtHypoSnap.1.evict_inactive 20).2 = 1 ∧
      (alGet rtHypoSnap.2 (rtHypoSnap.1.evict_inactive 20).1.active_twins).isNone = true ∧
      ((rtHypoSnap.1.evict_inactive 20).1.store.get_snapshot rtHypoSnap.2).isSome = true :=
  ⟨rfl, rfl, rfl, rfl⟩

/-- C3 counterexample: the only twin ever created under id 0 is
hypothetical, yet after it is evicted (so no longer resident) a single
update_telemetry call for that id appends an event: get_latest_version
moves from 0 to 1, contradicting the claim for the non-resident case. -/
theorem claim3_counterexample :
    ((alGet rtHypoNoSnap.2 rtHypoNoSnap.1.active_twins).map
        (fun a => a.twin.state.is_hypothetical)) = some true ∧
      rtHypoNoSnapEvicted.store.get_latest_version = 0 ∧
      ((rtHypoNoSnapEvicted.update_telemetry rtHypoNoSnap.2 [("x", F64.num 1)] 30).toOption.map
        (fun r => r.store.get_latest_version)) = some 1 :=
  ⟨rfl, rfl, rfl⟩

/-- C3 amended: while a twin with is_hypothetical = true is resident in the
registry, update_telemetry succeeds and leaves the whole store (events,
per-twin index, snapshots, version counter, hence get_latest_version)
unchanged; Twin::send never touches the store, so messages leave it
unchanged as well. The guarantee is conditional on residence: for an id
with no resident twin, update_telemetry always appends. -/
theorem claim3_resident_hypothetical (rt : Runtime) (id : TwinId)
    (data : List (String × F64)) (now : Nat)
    (h : (alGet id rt.active_twins).map (fun a => a.twin.state.is_hypothetical) = some true) :
    (rt.update_telemetry id data now).toOption.map (fun r => r.store) = some rt.store := by
  cases halg : alGet id rt.active_twins with
  | none => rw [halg] at h; simp at h
  | some a =>
      rw [halg] at h
      have hflag : a.twin.state.is_hypothetical = true := by simpa using h
      simp [Runtime.update_telemetry, halg, Twin.is_hypothetical, hflag, Twin.send,
        Except.toOption]

theorem claim3_resident_hypothetical_witness :
    ((rtHypoNoSnap.1.update_telemetry rtHypoNoSnap.2 [("x", F64.num 1)] 3).toOption.map
      (fun r => r.store)) = some rtHypoNoSnap.1.store :=
  claim3_resident_hypothetical rtHypoNoSnap.1 rtHypoNoSnap.2 [("x", F64.num 1)] 3 rfl

/-- C4 counterexample: twin A (id 0) has exactly one event, at version 1,
but after twin B appends version 2, snapshot_twin(A) saves a snapshot whose
event_version is 2 — a version that belongs to B's event, not to any event
of A, and not 0. -/
theorem claim4_counterexample :
    ((rtAB.1.snapshot_twin rtA.2 1).toOption.bind
        (fun r => (r.store.get_snapshot rtA.2).map (fun s => s.event_version))) = some 2 ∧
      alGet rtA.2 rtAB.1.store.twin_events = some [1] ∧
      (2 : Nat) ∉ ([1] : List Nat) ∧ (2 : Nat) ≠ 0 :=
  ⟨rfl, rfl, by decide, by decide⟩

/-- C4 amended: the event_version that snapshot_twin saves is the store's
global latest append version at snapshot time — which may be the version of
another twin's event, and is 0 exactly when the store is empty — not
necessarily a version of one of this twin's own events. Stated for resident
twins, for which get_twin reuses the in-memory twin. -/
theorem claim4_snapshot_version (rt : Runtime) (id : TwinId) (now : Nat)
    (h : (alGet id rt.active_twins).isSome = true) :
    ((rt.snapshot_twin id now).toOption.bind
        (fun r => (r.store.get_snapshot id).map (fun s => s.event_version))) =
      some rt.store.get_latest_version := by
  cases halg : alGet id rt.active_twins with
  | none => rw [halg] at h; simp at h
  | some a =>
      simp [Runtime.snapshot_twin, Runtime.get_twin, halg, MemoryEventStore.save_snapshot,
        MemoryEventStore.get_snapshot, alGet_alInsert_self, MemoryEventStore.get_latest_version,
        Except.toOption]

theorem claim4_snapshot_version_witness :
    ((rtAB.1.snapshot_twin rtAB.2 1).toOption.bind
        (fun r => (r.store.get_snapshot rtAB.2).map (fun s => s.event_version))) =
      some rtAB.1.store.get_latest_version :=
  claim4_snapshot_version rtAB.1 rtAB.2 1 rfl

/-- C10: update_telemetry never checks that the twin id exists: for an id
with no resident twin, no snapshot, and no persisted events, the call
succeeds (never NotFound), appends exactly one TelemetryReceived event
carrying that id, and leaves the registry untouched — the twin is neither
loaded nor created. -/
theorem claim10_telemetry_unknown_id (rt : Runtime) (id : TwinId)
    (data : List (String × F64)) (now : Nat)
    (h1 : alGet id rt.active_twins = none)
    (_h2 : alGet id rt.store.snapshots = none)
    (h3 : alGet id rt.store.twin_events = none) :
    rt.update_telemetry id data now =
      .ok { rt with store :=
        { events := alInsert (rt.store.version_counter + 1)
            (.TelemetryReceived id data now) rt.store.events
          twin_events := alInsert id [rt.store.version_counter + 1] rt.store.twin_events
          snapshots := rt.store.snapshots
          version_counter := rt.store.version_counter + 1 } } := by
  simp [Runtime.update_telemetry, h1, MemoryEventStore.append, TwinEvent.twin_id, h3]

theorem claim10_telemetry_unknown_id_witness :
    (Runtime.new RuntimeConfig.standard).update_telemetry 5 [("x", F64.num 2)] 7 =
      .ok { Runtime.new RuntimeConfig.standard with store :=
        { events := alInsert 1 (.TelemetryReceived 5 [("x", F64.num 2)] 7)
            MemoryEventStore.new.events
          twin_events := alInsert 5 [1] MemoryEventStore.new.twin_events
          snapshots := MemoryEventStore.new.snapshots
          version_counter := 1 } } :=
  claim10_telemetry_unknown_id (Runtime.new RuntimeConfig.standard) 5
    [("x", F64.num 2)] 7 rfl rfl rfl

end Twintalk
